import Mathlib

/-!
Shallow embedding of the smart-store-sydney ETL scripts:
`src/analytics_project/data_preparation/prepare_sales_data.py` (cleaning pipeline)
and `src/analytics_project/etl_to_dw.py` (warehouse load).
-/

/-- A cell of a tabular dataset: a string, a numeric value (integers and floats
are both modelled as rationals), or null/missing (pandas NaN). -/
inductive Value where
  | str (s : String)
  | num (q : ℚ)
  | null
deriving DecidableEq

/-- A pandas DataFrame: named columns, and rows of cells where the cell of
column `cols[j]` in a row sits at position `j`. -/
structure DataFrame where
  cols : List String
  rows : List (List Value)
deriving DecidableEq

/-- Rectangularity invariant of a DataFrame (spec section 3: all rows share the
same column set). pandas guarantees it; the embedding states it explicitly. -/
def WF (df : DataFrame) : Prop := ∀ r ∈ df.rows, r.length = df.cols.length

instance (df : DataFrame) : Decidable (WF df) :=
  inferInstanceAs (Decidable (∀ r ∈ df.rows, r.length = df.cols.length))

/-- Cell of row `r` in the column with index `i` (positions past the end read
as null; rectangular frames never hit that default). -/
def keyAt (i : Nat) (r : List Value) : Value := r.getD i Value.null

/-- Decimal digit test on a character, by code point. -/
def isDigitChar (c : Char) : Bool := 48 ≤ c.toNat && c.toNat ≤ 57

/-- A digits-only character list read as a natural number (none when empty or
when a non-digit appears). -/
def digitsToNat (cs : List Char) : Option Nat :=
  if cs ≠ [] ∧ cs.all isDigitChar then
    some (cs.foldl (fun a c => a * 10 + (c.toNat - 48)) 0)
  else none

/-- Body of a decimal literal without sign: digits with an optional fractional
part after a single dot. -/
def parseUnsigned (cs : List Char) : Option ℚ :=
  match cs.dropWhile (fun c => c != '.') with
  | [] => (digitsToNat cs).map (fun n => mkRat n 1)
  | _ :: fp =>
      match digitsToNat (cs.takeWhile (fun c => c != '.')), digitsToNat fp with
      | some n, some f => some (mkRat (n * 10 ^ fp.length + f) (10 ^ fp.length))
      | _, _ => none

/-- Decimal-literal model of `pandas.to_numeric` applied to a string: optional
sign, integer digits, optional fractional digits. Any other spelling fails to
parse (and coerces to NaN below). -/
def parseNum (s : String) : Option ℚ :=
  match s.toList with
  | '-' :: rest => (parseUnsigned rest).map Rat.neg
  | '+' :: rest => parseUnsigned rest
  | cs => parseUnsigned cs

/-- `pandas.to_numeric(errors="coerce")` on one cell: numeric values pass
through, NaN stays NaN, strings parse to a number or become NaN. -/
def coerceVal : Value → Value
  | .num q => .num q
  | .null => .null
  | .str s =>
      match parseNum s with
      | some q => .num q
      | none => .null

/-- Index of the column named `c` in a column list (the position pandas
reads and writes for that label; first occurrence wins, callers guard
membership). -/
def colIdx (c : String) : List String → Nat
  | [] => 0
  | a :: as => if a = c then 0 else colIdx c as + 1

/-- Spec section 7 error taxonomy. A pandas KeyError for an absent column is
the taxonomy's SchemaError; a missing input file is NotFoundError. -/
inductive ErrKind where
  | notFound
  | schemaError
  | parseError
  | ioError
deriving DecidableEq

/-- First-occurrence deduplication by the key at column index `i`
(`drop_duplicates(subset=[...])` with the default `keep="first"`); `seen`
carries the key values already emitted. -/
def dedupFirst (i : Nat) : List (List Value) → List Value → List (List Value)
  | [], _ => []
  | r :: rs, seen =>
      if keyAt i r ∈ seen then dedupFirst i rs seen
      else r :: dedupFirst i rs (keyAt i r :: seen)

/-- `prepare_sales_data.remove_duplicates`:
`df.drop_duplicates(subset=["TransactionID"])`. pandas raises KeyError
(taxonomy SchemaError) when the column is absent. `drop_duplicates` builds a
fresh frame; the argument is not mutated. -/
def remove_duplicates (df : DataFrame) : Except ErrKind DataFrame :=
  if "TransactionID" ∈ df.cols then
    .ok { df with rows := dedupFirst (colIdx "TransactionID" df.cols) df.rows [] }
  else .error .schemaError

/-- `prepare_sales_data.handle_missing_values`:
`df.dropna(subset=["CampaignID"], inplace=True)` — drops every row whose
CampaignID cell is missing; KeyError (SchemaError) when the column is absent.
(The in-place aspect is captured separately by `handle_missing_values_call`.) -/
def handle_missing_values (df : DataFrame) : Except ErrKind DataFrame :=
  if "CampaignID" ∈ df.cols then
    .ok { df with rows :=
      df.rows.filter (fun r => decide (keyAt (colIdx "CampaignID" df.cols) r ≠ Value.null)) }
  else .error .schemaError

/-- The in-place column assignment
`df["SaleAmount"] = pd.to_numeric(df["SaleAmount"], errors="coerce")`
from `remove_outliers`, for the column at index `i`. -/
def coerceSaleAmount (df : DataFrame) (i : Nat) : DataFrame :=
  { df with rows := df.rows.map (fun r => r.set i (coerceVal (keyAt i r))) }

/-- Keep-predicate of the outlier filter `df[df["SaleAmount"] > 1]`. -/
def gtOne (i : Nat) (r : List Value) : Bool :=
  match keyAt i r with
  | .num q => decide (1 < q)
  | _ => false

/-- `prepare_sales_data.remove_outliers`: coerce SaleAmount to numeric (an
in-place column assignment), then `dropna(subset=["SaleAmount"])`, then keep
rows with SaleAmount > 1. Reading a missing SaleAmount column raises KeyError
(SchemaError). -/
def remove_outliers (df : DataFrame) : Except ErrKind DataFrame :=
  if "SaleAmount" ∈ df.cols then
    .ok { cols := df.cols
          rows :=
            (((coerceSaleAmount df (colIdx "SaleAmount" df.cols)).rows.filter
                (fun r => decide (keyAt (colIdx "SaleAmount" df.cols) r ≠ Value.null))).filter
              (gtOne (colIdx "SaleAmount" df.cols))) }
  else .error .schemaError

/-- The fixed date literal `standardize_formats` writes for the whole run. -/
def saleDateLiteral : Value := .str "5/4/25"

/-- `prepare_sales_data.standardize_formats`: `df["SaleDate"] = "5/4/25"` — a
pandas column assignment overwrites the column when present and creates it
when absent; it never raises. -/
def standardize_formats (df : DataFrame) : DataFrame :=
  if "SaleDate" ∈ df.cols then
    { df with rows := df.rows.map (fun r => r.set (colIdx "SaleDate" df.cols) saleDateLiteral) }
  else
    { cols := df.cols ++ ["SaleDate"], rows := df.rows.map (fun r => r ++ [saleDateLiteral]) }

/-- The prepare stage on one dataset (`prepare_sales_data.main`, lines
209-219): remove_duplicates, then handle_missing_values, then
remove_outliers, then standardize_formats, each feeding the next. -/
def cleaning_pipeline (df : DataFrame) : Except ErrKind DataFrame :=
  (remove_duplicates df).bind fun d1 =>
    (handle_missing_values d1).bind fun d2 =>
      (remove_outliers d2).map standardize_formats

/-! ### Call semantics of the cleaning transforms

The Python transforms take a DataFrame argument and return a DataFrame, but
three of them also mutate the argument. Each `..._call` function makes the
effect explicit by returning the pair
(state of the argument object after the call, returned frame). -/

/-- `remove_duplicates` call semantics: `drop_duplicates` (without `inplace`)
builds a fresh frame, so the argument is left untouched. -/
def remove_duplicates_call (df : DataFrame) : Except ErrKind (DataFrame × DataFrame) :=
  (remove_duplicates df).map fun out => (df, out)

/-- `handle_missing_values` call semantics:
`df.dropna(subset=["CampaignID"], inplace=True)` filters the argument in place
(raising KeyError before any mutation when the column is absent) and the
function then returns that same object. -/
def handle_missing_values_call (df : DataFrame) : Except ErrKind (DataFrame × DataFrame) :=
  (handle_missing_values df).map fun out => (out, out)

/-- `remove_outliers` call semantics: the column assignment
`df["SaleAmount"] = pd.to_numeric(df["SaleAmount"], errors="coerce")` mutates
the argument; the later `dropna` and boolean filter build fresh frames, so
after the call the argument still holds every row (with the coerced column)
while only the returned frame is row-filtered. -/
def remove_outliers_call (df : DataFrame) : Except ErrKind (DataFrame × DataFrame) :=
  (remove_outliers df).map fun out =>
    (coerceSaleAmount df (colIdx "SaleAmount" df.cols), out)

/-- `standardize_formats` call semantics: `df["SaleDate"] = "5/4/25"` mutates
the argument and the same object is returned. -/
def standardize_formats_call (df : DataFrame) : DataFrame × DataFrame :=
  (standardize_formats df, standardize_formats df)

/-! ### Warehouse model (`etl_to_dw.py`)

SQLite state as observed through the single connection of a load run. Every
operation of the run is durably committed at the point it executes:
`cursor.executescript` issues a COMMIT and runs its DDL in autocommit mode,
the bare `cursor.execute("DROP TABLE ...")` statements are DDL and also run
in autocommit mode (Python's sqlite3 only opens an implicit transaction for
DML), and every `DataFrame.to_sql` call on a plain sqlite3 connection ends
with `con.commit()` (pandas `SQLiteDatabase.run_transaction`). The final
`conn.commit()` in `load_data_to_db` therefore has nothing left to commit,
and `conn.close()` on the failure path has nothing to roll back. -/

/-- A declared foreign key: `col` references `refTable(refCol)`. -/
structure ForeignKey where
  col : String
  refTable : String
  refCol : String
deriving DecidableEq

/-- A SQLite table schema: column names, optional primary key, declared
foreign keys. -/
structure TableSchema where
  cols : List String
  primaryKey : Option String
  foreignKeys : List ForeignKey
deriving DecidableEq

/-- A SQLite table: its schema and its rows. -/
structure Table where
  schema : TableSchema
  rows : List (List Value)
deriving DecidableEq

/-- Committed warehouse state: each of the three tables is either absent
(`none`) or present. -/
structure Warehouse where
  customers : Option Table
  products : Option Table
  sales : Option Table
deriving DecidableEq

/-- The customers schema declared by `etl_to_dw.create_schema`. -/
def customersSchema : TableSchema :=
  ⟨["customer_id", "name", "region", "join_date", "age", "subscription_status"],
   some "customer_id", []⟩

/-- The products schema declared by `etl_to_dw.create_schema`. -/
def productsSchema : TableSchema :=
  ⟨["product_id", "product_name", "category", "unit_price", "manufacture_year",
    "availability_status"],
   some "product_id", []⟩

/-- The sales schema declared by `etl_to_dw.create_schema`, with the two
foreign keys toward customers and products. -/
def salesSchema : TableSchema :=
  ⟨["sale_id", "date", "customer_id", "product_id", "store_id", "campaign_id",
    "quantity", "sales_amount"],
   some "sale_id",
   [⟨"customer_id", "customers", "customer_id"⟩,
    ⟨"product_id", "products", "product_id"⟩]⟩

/-- `etl_to_dw.create_schema`: CREATE TABLE IF NOT EXISTS for the three
tables — an existing table is kept as is, an absent one is created empty with
the declared schema. -/
def create_schema (w : Warehouse) : Warehouse :=
  ⟨some (w.customers.getD ⟨customersSchema, []⟩),
   some (w.products.getD ⟨productsSchema, []⟩),
   some (w.sales.getD ⟨salesSchema, []⟩)⟩

/-- `etl_to_dw.delete_existing_records`: DROP TABLE IF EXISTS on all three
tables, whatever the prior state. -/
def delete_existing_records (_w : Warehouse) : Warehouse := ⟨none, none, none⟩

/-- `pandas.DataFrame.to_sql(name, conn, if_exists="append")`: appends the
frame's rows into an existing table, or — when the table does not exist —
creates it from the frame's columns, without any primary key or foreign key,
and inserts the rows. The call commits. -/
def to_sql_append (df : DataFrame) (t : Option Table) : Table :=
  match t with
  | some tbl => ⟨tbl.schema, tbl.rows ++ df.rows⟩
  | none => ⟨⟨df.cols, none, []⟩, df.rows⟩

/-- `pandas.DataFrame.rename(columns=m)`: every column label that appears in
the mapping is replaced, all others are kept. -/
def renameCols (m : List (String × String)) (cols : List String) : List String :=
  cols.map fun c => ((m.find? fun p => p.1 == c).map Prod.snd).getD c

/-- `rename` applied to a whole frame (cell values untouched). -/
def renameDf (m : List (String × String)) (df : DataFrame) : DataFrame :=
  ⟨renameCols m df.cols, df.rows⟩

/-- pandas column projection `df[[c1, ..., ck]]`: KeyError (SchemaError) when
a requested column is absent, else the selected columns in the given order. -/
def projectDf (sel : List String) (df : DataFrame) : Except ErrKind DataFrame :=
  if sel.all (fun c => decide (c ∈ df.cols)) then
    .ok ⟨sel, df.rows.map fun r => sel.map fun c => keyAt (colIdx c df.cols) r⟩
  else .error .schemaError

/-- Rename map of `etl_to_dw.insert_customers`. -/
def customersRenameMap : List (String × String) :=
  [("CustomerID", "customer_id"), ("Name", "name"), ("Region", "region"),
   ("JoinDate", "join_date"), ("Age", "age"),
   ("SubscriptionStatus", "subscription_status")]

/-- Rename map of `etl_to_dw.insert_products`. -/
def productsRenameMap : List (String × String) :=
  [("productid", "product_id"), ("productname", "product_name"),
   ("category", "category"), ("unitprice", "unit_price"),
   ("manufactureyear", "manufacture_year"),
   ("availabilitystatus", "availability_status")]

/-- Rename map of `etl_to_dw.insert_sales`. -/
def salesRenameMap : List (String × String) :=
  [("TransactionID", "sale_id"), ("SaleDate", "sale_date"),
   ("CustomerID", "customer_id"), ("ProductID", "product_id"),
   ("StoreID", "store_id"), ("CampaignID", "campaign_id"),
   ("SaleAmount", "sales_amount"), ("DiscountAmount", "discount_amount"),
   ("State", "state")]

/-- Column selection of `etl_to_dw.insert_products`. -/
def productsProjection : List String :=
  ["product_id", "product_name", "category", "unit_price", "manufacture_year",
   "availability_status"]

/-- Column selection of `etl_to_dw.insert_sales`. -/
def salesProjection : List String :=
  ["sale_id", "sale_date", "customer_id", "product_id", "store_id",
   "campaign_id", "sales_amount", "discount_amount", "state"]

/-- The frame `etl_to_dw.insert_customers` hands to `to_sql`: rename only —
the function performs no column projection. -/
def insert_customers_df (df : DataFrame) : Except ErrKind DataFrame :=
  .ok (renameDf customersRenameMap df)

/-- The frame `etl_to_dw.insert_products` hands to `to_sql`: rename, then
projection to six columns. -/
def insert_products_df (df : DataFrame) : Except ErrKind DataFrame :=
  projectDf productsProjection (renameDf productsRenameMap df)

/-- The frame `etl_to_dw.insert_sales` hands to `to_sql`: rename, then
projection to nine columns. -/
def insert_sales_df (df : DataFrame) : Except ErrKind DataFrame :=
  projectDf salesProjection (renameDf salesRenameMap df)

/-- Outcome of a load run: normal completion, or an exception caught by the
top-level handler of `load_data_to_db`. -/
inductive LoadOutcome where
  | success
  | caught (e : ErrKind)
deriving DecidableEq

/-- `etl_to_dw.load_data_to_db`, threading the committed warehouse state.
The run creates the schema, then drops all tables (that order is the one in
the source, lines 149-151), reads the three prepared CSVs, then inserts
customers, products, sales via `to_sql`. Each step is committed when it
executes (see the section comment); an exception at any point is caught by
the top-level handler, leaving every previously committed step in place.
The three CSV reads are modelled as `Except` inputs (a missing file is
NotFoundError, malformed content ParseError). -/
def load_data_to_db (w0 : Warehouse)
    (customersCsv productsCsv salesCsv : Except ErrKind DataFrame) :
    Warehouse × LoadOutcome :=
  let w2 := delete_existing_records (create_schema w0)
  match customersCsv with
  | .error e => (w2, .caught e)
  | .ok cdf =>
    match productsCsv with
    | .error e => (w2, .caught e)
    | .ok pdf =>
      match salesCsv with
      | .error e => (w2, .caught e)
      | .ok sdf =>
        match insert_customers_df cdf with
        | .error e => (w2, .caught e)
        | .ok cdf' =>
          let w3 : Warehouse := ⟨some (to_sql_append cdf' w2.customers), w2.products, w2.sales⟩
          match insert_products_df pdf with
          | .error e => (w3, .caught e)
          | .ok pdf' =>
            let w4 : Warehouse := ⟨w3.customers, some (to_sql_append pdf' w3.products), w3.sales⟩
            match insert_sales_df sdf with
            | .error e => (w4, .caught e)
            | .ok sdf' =>
              (⟨w4.customers, w4.products, some (to_sql_append sdf' w4.sales)⟩, .success)

/-- Spec section 3: the declared Customer columns (spec-side definition, used
only to compare the loader's behaviour against the specification). -/
def specCustomerColumns : List String :=
  ["customer_id", "name", "region", "join_date", "age", "subscription_status"]

/-- Spec section 3: the declared Product columns (spec-side definition). -/
def specProductColumns : List String :=
  ["product_id", "product_name", "category", "unit_price", "manufacture_year",
   "availability_status"]

/-- Spec section 3: the declared Sale columns (spec-side definition). Note
`date` (not `sale_date`) and the presence of `quantity`. -/
def specSaleColumns : List String :=
  ["sale_id", "date", "customer_id", "product_id", "store_id", "campaign_id",
   "quantity", "sales_amount", "discount_amount", "state"]

/-! ### Concrete frames and warehouse states used as test inputs -/

/-- Raw 5-row sales frame of the spec's end-to-end scenario (section 8.8):
row 2 duplicates row 0's TransactionID, row 3 has a null CampaignID, row 4
has SaleAmount -5, the remaining rows pass every filter. -/
def scenarioRaw : DataFrame :=
  ⟨["TransactionID", "SaleDate", "CampaignID", "SaleAmount"],
   [[.num 1, .str "1/1/24", .num 10, .num 100],
    [.num 2, .str "1/2/24", .num 11, .num 200],
    [.num 1, .str "1/3/24", .num 12, .num 300],
    [.num 3, .str "1/4/24", .null, .num 400],
    [.num 4, .str "1/5/24", .num 13, .num (-5)]]⟩

/-- Prepared output of the end-to-end scenario. -/
def scenarioPrepared : DataFrame :=
  ⟨["TransactionID", "SaleDate", "CampaignID", "SaleAmount"],
   [[.num 1, .str "5/4/25", .num 10, .num 100],
    [.num 2, .str "5/4/25", .num 11, .num 200]]⟩

/-- Frame with TransactionID keys 1, 2, 2, 3 (the deduplication example of
spec section 8.1). -/
def dedupExample : DataFrame :=
  ⟨["TransactionID"], [[.num 1], [.num 2], [.num 2], [.num 3]]⟩

/-- `dedupExample` after deduplication: keys 1, 2, 3. -/
def dedupExampleOut : DataFrame :=
  ⟨["TransactionID"], [[.num 1], [.num 2], [.num 3]]⟩

/-- Outlier-filter example frame of spec section 8.3: SaleAmount "abc"
(non-numeric), 1 (at the bound), 1.01 (just above the bound). -/
def outlierExample : DataFrame :=
  ⟨["SaleAmount"], [[.str "abc"], [.num 1], [.num (mkRat 101 100)]]⟩

/-- `outlierExample` after the outlier filter: only the 1.01 row remains. -/
def outlierExampleOut : DataFrame :=
  ⟨["SaleAmount"], [[.num (mkRat 101 100)]]⟩

/-- Frame with one missing and one present SaleAmount cell. -/
def nullAmountExample : DataFrame :=
  ⟨["SaleAmount"], [[.null], [.num 3]]⟩

/-- One-row frame with the four pipeline columns, already clean. -/
def idemExample : DataFrame :=
  ⟨["TransactionID", "CampaignID", "SaleAmount", "SaleDate"],
   [[.num 1, .num 7, .num 2, .str "x"]]⟩

/-- Pipeline output for `idemExample`. -/
def idemExampleOut : DataFrame :=
  ⟨["TransactionID", "CampaignID", "SaleAmount", "SaleDate"],
   [[.num 1, .num 7, .num 2, .str "5/4/25"]]⟩

/-- Frame whose CampaignID column holds one null cell: input for observing
the in-place mutation of `handle_missing_values`. -/
def mutExample : DataFrame := ⟨["CampaignID"], [[.null], [.num 5]]⟩

/-- State of the `mutExample` object after `handle_missing_values`. -/
def mutExampleAfter : DataFrame := ⟨["CampaignID"], [[.num 5]]⟩

/-- Frame for observing the in-place coercion done by `remove_outliers`. -/
def mutOutlierExample : DataFrame := ⟨["SaleAmount"], [[.str "abc"], [.num 3]]⟩

/-- Customers CSV frame: the six source columns, one row. -/
def custCsvEx : DataFrame :=
  ⟨["CustomerID", "Name", "Region", "JoinDate", "Age", "SubscriptionStatus"],
   [[.str "c1", .str "Ann", .str "East", .str "1/1/20", .num 30, .str "Active"]]⟩

/-- Customers CSV frame with an extra column beyond the section 3 set. -/
def custCsvExtra : DataFrame :=
  ⟨["CustomerID", "Name", "Region", "JoinDate", "Age", "SubscriptionStatus", "Extra"],
   [[.str "c1", .str "Ann", .str "East", .str "1/1/20", .num 30, .str "Active", .str "x"]]⟩

/-- Products CSV frame: the six source columns, one row. -/
def prodCsvEx : DataFrame :=
  ⟨["productid", "productname", "category", "unitprice", "manufactureyear",
    "availabilitystatus"],
   [[.str "p1", .str "Widget", .str "Toys", .num 5, .num 2020, .str "In"]]⟩

/-- Sales CSV frame with all nine source columns expected by the rename map. -/
def salesCsvGood : DataFrame :=
  ⟨["TransactionID", "SaleDate", "CustomerID", "ProductID", "StoreID",
    "CampaignID", "SaleAmount", "DiscountAmount", "State"],
   [[.num 1, .str "5/4/25", .str "c1", .str "p1", .str "s1", .str "k1",
     .num 100, .num 0, .str "NSW"]]⟩

/-- Sales CSV frame missing the State column: its projection in
`insert_sales` raises KeyError. -/
def salesCsvBad : DataFrame :=
  ⟨["TransactionID", "SaleDate", "CustomerID", "ProductID", "StoreID",
    "CampaignID", "SaleAmount", "DiscountAmount"],
   [[.num 1, .str "5/4/25", .str "c1", .str "p1", .str "s1", .str "k1",
     .num 100, .num 0]]⟩

/-- Sales CSV frame that also carries a Quantity column. -/
def salesCsvQty : DataFrame :=
  ⟨["TransactionID", "SaleDate", "CustomerID", "ProductID", "StoreID",
    "CampaignID", "SaleAmount", "DiscountAmount", "State", "Quantity"],
   [[.num 1, .str "5/4/25", .str "c1", .str "p1", .str "s1", .str "k1",
     .num 100, .num 0, .str "NSW", .num 2]]⟩

/-- A warehouse holding prior sales contents (from an earlier run). -/
def wPrior : Warehouse :=
  ⟨none, none,
   some ⟨salesSchema,
     [[.num 900, .str "1/1/24", .str "c9", .str "p9", .str "s9", .str "k9",
       .num 1, .num 50]]⟩⟩

/-- Customers table as created by `to_sql` during the load (no primary key,
no foreign keys — pandas recreates the dropped table from the frame). -/
def custTableLoaded : Table :=
  ⟨⟨["customer_id", "name", "region", "join_date", "age", "subscription_status"],
    none, []⟩,
   custCsvEx.rows⟩

/-- Products table as created by `to_sql` during the load. -/
def prodTableLoaded : Table := ⟨⟨productsProjection, none, []⟩, prodCsvEx.rows⟩

/-- Sales table as created by `to_sql` during a fully successful load. -/
def salesTableLoaded : Table := ⟨⟨salesProjection, none, []⟩, salesCsvGood.rows⟩

/-- Warehouse left standing after a load run whose sales insert failed:
customers and products committed, sales table absent. -/
def wPartial : Warehouse := ⟨some custTableLoaded, some prodTableLoaded, none⟩

/-- Warehouse after a fully successful load run. -/
def wLoaded : Warehouse :=
  ⟨some custTableLoaded, some prodTableLoaded, some salesTableLoaded⟩

/-- State of the `mutOutlierExample` object after `remove_outliers`: the
SaleAmount column coerced (the "abc" cell became null), all rows retained. -/
def mutOutlierAfter : DataFrame := ⟨["SaleAmount"], [[.null], [.num 3]]⟩

/-- Frame returned by `remove_outliers` on `mutOutlierExample` (and on
`nullAmountExample`): the single row with SaleAmount 3. -/
def amountKeptRow : DataFrame := ⟨["SaleAmount"], [[.num 3]]⟩

/-- `custCsvExtra` after the customers rename (no projection happens). -/
def custExtraRenamed : DataFrame :=
  ⟨["customer_id", "name", "region", "join_date", "age", "subscription_status",
    "Extra"], custCsvExtra.rows⟩

/-- Frame handed to `to_sql` by `insert_sales` on `salesCsvQty`: the nine
projected columns; the Quantity cell is gone. -/
def salesQtyProjected : DataFrame :=
  ⟨salesProjection,
   [[.num 1, .str "5/4/25", .str "c1", .str "p1", .str "s1", .str "k1",
     .num 100, .num 0, .str "NSW"]]⟩

/-- Frame without a TransactionID column. -/
def noKeyExample : DataFrame := ⟨["SaleAmount"], []⟩

/-! ### Helper lemmas -/

theorem keyAt_cons (a : Value) (r : List Value) (i : Nat) :
    keyAt (i + 1) (a :: r) = keyAt i r := rfl

theorem keyAt_set_ne (v : Value) :
    ∀ (r : List Value) (i j : Nat), i ≠ j → keyAt i (r.set j v) = keyAt i r
  | [], _, _, _ => rfl
  | _ :: _, 0, 0, h => absurd rfl h
  | _ :: _, 0, _ + 1, _ => rfl
  | _ :: _, _ + 1, 0, _ => rfl
  | _ :: as, i + 1, j + 1, h =>
      keyAt_set_ne v as i j (fun hh => h (by rw [hh]))

theorem keyAt_set_self (v : Value) :
    ∀ (r : List Value) (i : Nat), i < r.length → keyAt i (r.set i v) = v
  | [], i, h => absurd h (Nat.not_lt_zero i)
  | _ :: _, 0, _ => rfl
  | _ :: as, i + 1, h => keyAt_set_self v as i (Nat.lt_of_succ_lt_succ h)

theorem set_keyAt_self : ∀ (r : List Value) (i : Nat), r.set i (keyAt i r) = r
  | [], _ => rfl
  | _ :: _, 0 => rfl
  | a :: as, i + 1 => congrArg (a :: ·) (set_keyAt_self as i)

theorem keyAt_append_lt :
    ∀ (r t : List Value) (i : Nat), i < r.length → keyAt i (r ++ t) = keyAt i r
  | [], _, i, h => absurd h (Nat.not_lt_zero i)
  | _ :: _, _, 0, _ => rfl
  | _ :: as, t, i + 1, h => keyAt_append_lt as t i (Nat.lt_of_succ_lt_succ h)

theorem keyAt_append_len (v : Value) : ∀ (r : List Value), keyAt r.length (r ++ [v]) = v
  | [] => rfl
  | _ :: as => keyAt_append_len v as

theorem colIdx_lt_length (c : String) :
    ∀ (l : List String), c ∈ l → colIdx c l < l.length := by
  intro l
  induction l with
  | nil => intro h; cases h
  | cons a as ih =>
      intro h
      by_cases ha : a = c
      · simp [colIdx, ha]
      · have hm : c ∈ as := by
          cases List.mem_cons.mp h with
          | inl hh => exact absurd hh.symm ha
          | inr hh => exact hh
        simpa [colIdx, ha] using Nat.succ_lt_succ (ih hm)

theorem getD_colIdx (c : String) :
    ∀ (l : List String), c ∈ l → l.getD (colIdx c l) "" = c := by
  intro l
  induction l with
  | nil => intro h; cases h
  | cons a as ih =>
      intro h
      by_cases ha : a = c
      · simp [colIdx, ha]
      · have hm : c ∈ as := by
          cases List.mem_cons.mp h with
          | inl hh => exact absurd hh.symm ha
          | inr hh => exact hh
        simpa [colIdx, ha] using ih hm

theorem colIdx_ne_of_ne {c₁ c₂ : String} {l : List String}
    (h1 : c₁ ∈ l) (h2 : c₂ ∈ l) (hne : c₁ ≠ c₂) :
    colIdx c₁ l ≠ colIdx c₂ l := by
  intro he
  apply hne
  calc c₁ = l.getD (colIdx c₁ l) "" := (getD_colIdx c₁ l h1).symm
    _ = l.getD (colIdx c₂ l) "" := by rw [he]
    _ = c₂ := getD_colIdx c₂ l h2

theorem colIdx_append_left (c : String) :
    ∀ (l t : List String), c ∈ l → colIdx c (l ++ t) = colIdx c l := by
  intro l t
  induction l with
  | nil => intro h; cases h
  | cons a as ih =>
      intro h
      by_cases ha : a = c
      · simp [colIdx, ha]
      · have hm : c ∈ as := by
          cases List.mem_cons.mp h with
          | inl hh => exact absurd hh.symm ha
          | inr hh => exact hh
        simp [colIdx, ha, ih hm]

theorem colIdx_append_len (c : String) :
    ∀ (l : List String), c ∉ l → colIdx c (l ++ [c]) = l.length := by
  intro l
  induction l with
  | nil => intro _; simp [colIdx]
  | cons a as ih =>
      intro h
      have ha : a ≠ c := fun hh => h (by rw [hh]; exact List.mem_cons_self c as)
      have hm : c ∉ as := fun hh => h (List.mem_cons_of_mem a hh)
      simp [colIdx, ha, ih hm]

theorem filter_eq_self_of {α : Type} (p : α → Bool) (l : List α)
    (h : ∀ a ∈ l, p a = true) : l.filter p = l :=
  List.filter_eq_self.mpr h

theorem map_eq_self_of {α : Type} (f : α → α) (l : List α)
    (h : ∀ a ∈ l, f a = a) : l.map f = l := by
  induction l with
  | nil => rfl
  | cons a as ih =>
      simp only [List.map_cons]
      rw [h a (List.mem_cons_self a as), ih (fun x hx => h x (List.mem_cons_of_mem a hx))]

/-! Deduplication lemmas. -/

theorem dedupFirst_sublist (i : Nat) :
    ∀ (rows : List (List Value)) (seen : List Value),
      List.Sublist (dedupFirst i rows seen) rows := by
  intro rows
  induction rows with
  | nil => intro seen; exact List.Sublist.refl []
  | cons r rs ih =>
      intro seen
      by_cases h : keyAt i r ∈ seen
      · simpa [dedupFirst, h] using (ih seen).cons r
      · simpa [dedupFirst, h] using (ih (keyAt i r :: seen)).cons₂ r

theorem dedupFirst_not_mem_seen (i : Nat) :
    ∀ (rows : List (List Value)) (seen : List Value),
      ∀ r ∈ dedupFirst i rows seen, keyAt i r ∉ seen := by
  intro rows
  induction rows with
  | nil => intro seen r hr; cases hr
  | cons r0 rs ih =>
      intro seen r hr
      by_cases h : keyAt i r0 ∈ seen
      · rw [dedupFirst, if_pos h] at hr
        exact ih seen r hr
      · rw [dedupFirst, if_neg h] at hr
        cases List.mem_cons.mp hr with
        | inl he => rw [he]; exact h
        | inr ht =>
            intro hs
            exact ih (keyAt i r0 :: seen) r ht (List.mem_cons_of_mem _ hs)

theorem dedupFirst_keys_nodup (i : Nat) :
    ∀ (rows : List (List Value)) (seen : List Value),
      ((dedupFirst i rows seen).map (keyAt i)).Nodup := by
  intro rows
  induction rows with
  | nil => intro seen; simp [dedupFirst]
  | cons r0 rs ih =>
      intro seen
      by_cases h : keyAt i r0 ∈ seen
      · rw [dedupFirst, if_pos h]; exact ih seen
      · rw [dedupFirst, if_neg h]
        rw [List.map_cons, List.nodup_cons]
        refine ⟨?_, ih (keyAt i r0 :: seen)⟩
        intro hmem
        obtain ⟨r, hr, hkey⟩ := List.mem_map.mp hmem
        exact dedupFirst_not_mem_seen i rs (keyAt i r0 :: seen) r hr
          (by rw [hkey]; exact List.mem_cons_self _ _)

theorem dedupFirst_eq_self (i : Nat) :
    ∀ (rows : List (List Value)) (seen : List Value),
      (rows.map (keyAt i)).Nodup → (∀ r ∈ rows, keyAt i r ∉ seen) →
      dedupFirst i rows seen = rows := by
  intro rows
  induction rows with
  | nil => intro seen _ _; rfl
  | cons r0 rs ih =>
      intro seen hnd hseen
      have h0 : keyAt i r0 ∉ seen := hseen r0 (List.mem_cons_self r0 rs)
      rw [dedupFirst, if_neg h0]
      rw [List.map_cons, List.nodup_cons] at hnd
      refine congrArg (r0 :: ·) (ih (keyAt i r0 :: seen) hnd.2 ?_)
      intro r hr hmem
      cases List.mem_cons.mp hmem with
      | inl he => exact hnd.1 (List.mem_map.mpr ⟨r, hr, he⟩)
      | inr ht => exact hseen r (List.mem_cons_of_mem r0 hr) ht

theorem dedupFirst_filter_key (i : Nat) (v : Value) :
    ∀ (rows : List (List Value)) (seen : List Value),
      (dedupFirst i rows seen).filter (fun r => decide (keyAt i r = v)) =
        if v ∈ seen then [] else (rows.find? (fun r => decide (keyAt i r = v))).toList := by
  intro rows
  induction rows with
  | nil =>
      intro seen
      by_cases h : v ∈ seen <;> simp [dedupFirst, h]
  | cons r0 rs ih =>
      intro seen
      by_cases h : keyAt i r0 ∈ seen
      · rw [dedupFirst, if_pos h, ih seen]
        by_cases hv : v ∈ seen
        · simp [hv]
        · have hk : ¬ keyAt i r0 = v := fun he => hv (he ▸ h)
          simp [hv, List.find?, hk]
      · rw [dedupFirst, if_neg h]
        by_cases hk : keyAt i r0 = v
        · have hv : v ∉ seen := hk ▸ h
          rw [List.filter_cons_of_pos (by simpa using hk), ih (keyAt i r0 :: seen)]
          rw [if_pos (by rw [hk]; exact List.mem_cons_self _ _)]
          simp [hv, List.find?, hk]
        · rw [List.filter_cons_of_neg (by simpa using hk), ih (keyAt i r0 :: seen)]
          by_cases hv : v ∈ seen
          · rw [if_pos (List.mem_cons_of_mem _ hv), if_pos hv]
          · have : v ∉ keyAt i r0 :: seen := by
              intro hm
              cases List.mem_cons.mp hm with
              | inl he => exact hk he.symm
              | inr ht => exact hv ht
            rw [if_neg this, if_neg hv]
            simp [List.find?, hk]

/-! Stage characterization and identity lemmas. -/

theorem remove_duplicates_ok {df out : DataFrame} (h : remove_duplicates df = .ok out) :
    "TransactionID" ∈ df.cols ∧ out.cols = df.cols ∧
      out.rows = dedupFirst (colIdx "TransactionID" df.cols) df.rows [] := by
  by_cases hm : "TransactionID" ∈ df.cols
  · rw [remove_duplicates, if_pos hm] at h
    injection h with h
    subst h
    exact ⟨hm, rfl, rfl⟩
  · rw [remove_duplicates, if_neg hm] at h
    exact Except.noConfusion h

theorem handle_missing_values_ok {df out : DataFrame}
    (h : handle_missing_values df = .ok out) :
    "CampaignID" ∈ df.cols ∧ out.cols = df.cols ∧
      out.rows = df.rows.filter
        (fun r => decide (keyAt (colIdx "CampaignID" df.cols) r ≠ Value.null)) := by
  by_cases hm : "CampaignID" ∈ df.cols
  · rw [handle_missing_values, if_pos hm] at h
    injection h with h
    subst h
    exact ⟨hm, rfl, rfl⟩
  · rw [handle_missing_values, if_neg hm] at h
    exact Except.noConfusion h

theorem remove_outliers_ok {df out : DataFrame} (h : remove_outliers df = .ok out) :
    "SaleAmount" ∈ df.cols ∧ out.cols = df.cols ∧
      out.rows =
        ((df.rows.map (fun r =>
              r.set (colIdx "SaleAmount" df.cols)
                (coerceVal (keyAt (colIdx "SaleAmount" df.cols) r)))).filter
            (fun r => decide (keyAt (colIdx "SaleAmount" df.cols) r ≠ Value.null))).filter
          (gtOne (colIdx "SaleAmount" df.cols)) := by
  by_cases hm : "SaleAmount" ∈ df.cols
  · rw [remove_outliers, if_pos hm] at h
    injection h with h
    subst h
    exact ⟨hm, rfl, rfl⟩
  · rw [remove_outliers, if_neg hm] at h
    exact Except.noConfusion h

theorem remove_duplicates_id {df : DataFrame} (hm : "TransactionID" ∈ df.cols)
    (hnd : (df.rows.map (keyAt (colIdx "TransactionID" df.cols))).Nodup) :
    remove_duplicates df = .ok df := by
  rw [remove_duplicates, if_pos hm,
    dedupFirst_eq_self _ _ _ hnd (fun r _ => List.not_mem_nil _)]

theorem handle_missing_values_id {df : DataFrame} (hm : "CampaignID" ∈ df.cols)
    (hall : ∀ r ∈ df.rows, keyAt (colIdx "CampaignID" df.cols) r ≠ Value.null) :
    handle_missing_values df = .ok df := by
  rw [handle_missing_values, if_pos hm,
    filter_eq_self_of _ _ (fun r hr => decide_eq_true (hall r hr))]

theorem remove_outliers_id {df : DataFrame} (hm : "SaleAmount" ∈ df.cols)
    (hall : ∀ r ∈ df.rows,
      ∃ q : ℚ, keyAt (colIdx "SaleAmount" df.cols) r = .num q ∧ 1 < q) :
    remove_outliers df = .ok df := by
  rw [remove_outliers, if_pos hm]
  have hmap : (coerceSaleAmount df (colIdx "SaleAmount" df.cols)).rows = df.rows := by
    show df.rows.map _ = df.rows
    apply map_eq_self_of
    intro r hr
    obtain ⟨q, hq, _⟩ := hall r hr
    calc r.set (colIdx "SaleAmount" df.cols)
          (coerceVal (keyAt (colIdx "SaleAmount" df.cols) r))
        = r.set (colIdx "SaleAmount" df.cols) (keyAt (colIdx "SaleAmount" df.cols) r) := by
          rw [hq]
          rfl
      _ = r := set_keyAt_self r _
  rw [hmap]
  have h1 : df.rows.filter
      (fun r => decide (keyAt (colIdx "SaleAmount" df.cols) r ≠ Value.null)) = df.rows := by
    apply filter_eq_self_of
    intro r hr
    obtain ⟨q, hq, _⟩ := hall r hr
    simp [hq]
  have h2 : df.rows.filter (gtOne (colIdx "SaleAmount" df.cols)) = df.rows := by
    apply filter_eq_self_of
    intro r hr
    obtain ⟨q, hq, hgt⟩ := hall r hr
    simp [gtOne, hq, hgt]
  rw [h1, h2]

theorem standardize_formats_id {df : DataFrame} (hm : "SaleDate" ∈ df.cols)
    (hall : ∀ r ∈ df.rows, keyAt (colIdx "SaleDate" df.cols) r = saleDateLiteral) :
    standardize_formats df = df := by
  rw [standardize_formats, if_pos hm]
  have hmap : df.rows.map
      (fun r => r.set (colIdx "SaleDate" df.cols) saleDateLiteral) = df.rows := by
    apply map_eq_self_of
    intro r hr
    rw [← hall r hr]
    exact set_keyAt_self r _
  rw [hmap]

theorem remove_outliers_rows_spec {df out : DataFrame} (h : remove_outliers df = .ok out) :
    ∀ r ∈ out.rows,
      ∃ q : ℚ, keyAt (colIdx "SaleAmount" df.cols) r = .num q ∧ 1 < q := by
  obtain ⟨_, _, hrows⟩ := remove_outliers_ok h
  intro r hr
  rw [hrows] at hr
  have hg := (List.mem_filter.mp hr).2
  cases hk : keyAt (colIdx "SaleAmount" df.cols) r with
  | num q =>
      refine ⟨q, rfl, ?_⟩
      unfold gtOne at hg
      rw [hk] at hg
      exact of_decide_eq_true hg
  | str s =>
      unfold gtOne at hg
      rw [hk] at hg
      cases hg
  | null =>
      unfold gtOne at hg
      rw [hk] at hg
      cases hg

/-- The four-column cleanliness conditions under which every pipeline stage
acts as the identity. -/
theorem pipeline_fixed_of_clean {e : DataFrame}
    (hT : "TransactionID" ∈ e.cols) (hC : "CampaignID" ∈ e.cols)
    (hA : "SaleAmount" ∈ e.cols) (hD : "SaleDate" ∈ e.cols)
    (hnd : (e.rows.map (keyAt (colIdx "TransactionID" e.cols))).Nodup)
    (hc : ∀ r ∈ e.rows, keyAt (colIdx "CampaignID" e.cols) r ≠ Value.null)
    (ha : ∀ r ∈ e.rows, ∃ q : ℚ, keyAt (colIdx "SaleAmount" e.cols) r = .num q ∧ 1 < q)
    (hd : ∀ r ∈ e.rows, keyAt (colIdx "SaleDate" e.cols) r = saleDateLiteral) :
    cleaning_pipeline e = .ok e := by
  have hrd := remove_duplicates_id hT hnd
  have hhm := handle_missing_values_id hC hc
  have hro := remove_outliers_id hA ha
  have hsf := standardize_formats_id hD hd
  calc cleaning_pipeline e
      = (remove_duplicates e).bind (fun d1 =>
          (handle_missing_values d1).bind fun d2 =>
            (remove_outliers d2).map standardize_formats) := rfl
    _ = (handle_missing_values e).bind (fun d2 =>
          (remove_outliers d2).map standardize_formats) := by rw [hrd]; rfl
    _ = (remove_outliers e).map standardize_formats := by rw [hhm]; rfl
    _ = .ok (standardize_formats e) := by rw [hro]; rfl
    _ = .ok e := by rw [hsf]

theorem except_bind_ok {α β γ : Type} {x : Except γ α} {f : α → Except γ β} {b : β}
    (h : x.bind f = .ok b) : ∃ a, x = .ok a ∧ f a = .ok b := by
  cases x with
  | error e => exact Except.noConfusion h
  | ok a => exact ⟨a, rfl, h⟩

theorem except_map_ok {α β γ : Type} {x : Except γ α} {g : α → β} {b : β}
    (h : x.map g = .ok b) : ∃ a, x = .ok a ∧ g a = b := by
  cases x with
  | error e => exact Except.noConfusion h
  | ok a =>
      refine ⟨a, rfl, ?_⟩
      injection h

/-- A frame whose rows are pairwise distinct on TransactionID, non-null on
CampaignID, numeric above 1 on SaleAmount, and rectangular, is a fixed point
of the pipeline once `standardize_formats` has been applied to it. -/
theorem clean_after_standardize {cols : List String} {rows : List (List Value)}
    (hT : "TransactionID" ∈ cols) (hC : "CampaignID" ∈ cols) (hA : "SaleAmount" ∈ cols)
    (hnd : (rows.map (keyAt (colIdx "TransactionID" cols))).Nodup)
    (hc : ∀ r ∈ rows, keyAt (colIdx "CampaignID" cols) r ≠ Value.null)
    (ha : ∀ r ∈ rows, ∃ q : ℚ, keyAt (colIdx "SaleAmount" cols) r = .num q ∧ 1 < q)
    (hlen : ∀ r ∈ rows, r.length = cols.length) :
    cleaning_pipeline (standardize_formats ⟨cols, rows⟩) =
      .ok (standardize_formats ⟨cols, rows⟩) := by
  by_cases hD : "SaleDate" ∈ cols
  · rw [standardize_formats, if_pos hD]
    refine pipeline_fixed_of_clean ?_ ?_ ?_ ?_ ?_ ?_ ?_ ?_
    · exact hT
    · exact hC
    · exact hA
    · exact hD
    · show ((rows.map (fun r => r.set (colIdx "SaleDate" cols) saleDateLiteral)).map
          (keyAt (colIdx "TransactionID" cols))).Nodup
      have hcg : rows.map ((keyAt (colIdx "TransactionID" cols)) ∘
          (fun r => r.set (colIdx "SaleDate" cols) saleDateLiteral)) =
          rows.map (keyAt (colIdx "TransactionID" cols)) :=
        List.map_congr_left (fun r _ =>
          keyAt_set_ne _ r _ _ (colIdx_ne_of_ne hT hD (by decide)))
      rw [List.map_map, hcg]
      exact hnd
    · intro r hr
      obtain ⟨r0, hr0, he⟩ := List.mem_map.mp hr
      show keyAt (colIdx "CampaignID" cols) r ≠ Value.null
      rw [← he, keyAt_set_ne _ _ _ _ (colIdx_ne_of_ne hC hD (by decide))]
      exact hc r0 hr0
    · intro r hr
      obtain ⟨r0, hr0, he⟩ := List.mem_map.mp hr
      obtain ⟨q, hq, hgt⟩ := ha r0 hr0
      refine ⟨q, ?_, hgt⟩
      show keyAt (colIdx "SaleAmount" cols) r = Value.num q
      rw [← he, keyAt_set_ne _ _ _ _ (colIdx_ne_of_ne hA hD (by decide)), hq]
    · intro r hr
      obtain ⟨r0, hr0, he⟩ := List.mem_map.mp hr
      show keyAt (colIdx "SaleDate" cols) r = saleDateLiteral
      rw [← he]
      exact keyAt_set_self _ r0 _ (by rw [hlen r0 hr0]; exact colIdx_lt_length _ _ hD)
  · rw [standardize_formats, if_neg hD]
    have cT := colIdx_append_left "TransactionID" cols ["SaleDate"] hT
    have cC := colIdx_append_left "CampaignID" cols ["SaleDate"] hC
    have cA := colIdx_append_left "SaleAmount" cols ["SaleDate"] hA
    have cD := colIdx_append_len "SaleDate" cols hD
    refine pipeline_fixed_of_clean ?_ ?_ ?_ ?_ ?_ ?_ ?_ ?_
    · exact List.mem_append.mpr (Or.inl hT)
    · exact List.mem_append.mpr (Or.inl hC)
    · exact List.mem_append.mpr (Or.inl hA)
    · exact List.mem_append.mpr (Or.inr (by simp))
    · show ((rows.map (fun r => r ++ [saleDateLiteral])).map
          (keyAt (colIdx "TransactionID" (cols ++ ["SaleDate"])))).Nodup
      rw [cT, List.map_map]
      have hcg : rows.map ((keyAt (colIdx "TransactionID" cols)) ∘
          (fun r => r ++ [saleDateLiteral])) =
          rows.map (keyAt (colIdx "TransactionID" cols)) :=
        List.map_congr_left (fun r hr =>
          keyAt_append_lt r _ _ (by rw [hlen r hr]; exact colIdx_lt_length _ _ hT))
      rw [hcg]
      exact hnd
    · intro r hr
      obtain ⟨r0, hr0, he⟩ := List.mem_map.mp hr
      show keyAt (colIdx "CampaignID" (cols ++ ["SaleDate"])) r ≠ Value.null
      rw [cC, ← he,
        keyAt_append_lt r0 _ _ (by rw [hlen r0 hr0]; exact colIdx_lt_length _ _ hC)]
      exact hc r0 hr0
    · intro r hr
      obtain ⟨r0, hr0, he⟩ := List.mem_map.mp hr
      obtain ⟨q, hq, hgt⟩ := ha r0 hr0
      refine ⟨q, ?_, hgt⟩
      show keyAt (colIdx "SaleAmount" (cols ++ ["SaleDate"])) r = Value.num q
      rw [cA, ← he,
        keyAt_append_lt r0 _ _ (by rw [hlen r0 hr0]; exact colIdx_lt_length _ _ hA), hq]
    · intro r hr
      obtain ⟨r0, hr0, he⟩ := List.mem_map.mp hr
      show keyAt (colIdx "SaleDate" (cols ++ ["SaleDate"])) r = saleDateLiteral
      rw [cD, ← he, ← hlen r0 hr0]
      exact keyAt_append_len _ r0

/-- C4: applying the four-stage cleaning pipeline to its own output returns
that output unchanged — no further rows are removed and no cell values
change. Stated for every rectangular dataset on which the pipeline runs to
completion (which requires the TransactionID, CampaignID and SaleAmount
columns; the output always carries SaleDate). -/
theorem C4_pipeline_idempotent (df out : DataFrame) (hwf : WF df)
    (h : cleaning_pipeline df = .ok out) : cleaning_pipeline out = .ok out := by
  rw [cleaning_pipeline] at h
  obtain ⟨d1, h1, h⟩ := except_bind_ok h
  obtain ⟨d2, h2, h⟩ := except_bind_ok h
  obtain ⟨d3, h3, hout⟩ := except_map_ok h
  obtain ⟨hT, hc1, hr1⟩ := remove_duplicates_ok h1
  obtain ⟨hC, hc2, hr2⟩ := handle_missing_values_ok h2
  obtain ⟨hA, hc3, hr3⟩ := remove_outliers_ok h3
  obtain ⟨c1, rws1⟩ := d1
  replace hc1 : c1 = df.cols := hc1
  subst hc1
  obtain ⟨c2, rws2⟩ := d2
  replace hc2 : c2 = df.cols := hc2
  subst hc2
  obtain ⟨c3, rws3⟩ := d3
  replace hc3 : c3 = df.cols := hc3
  subst hc3
  replace hT : "TransactionID" ∈ df.cols := hT
  replace hC : "CampaignID" ∈ df.cols := hC
  replace hA : "SaleAmount" ∈ df.cols := hA
  replace hr1 : rws1 = dedupFirst (colIdx "TransactionID" df.cols) df.rows [] := hr1
  replace hr2 : rws2 = rws1.filter
      (fun r => decide (keyAt (colIdx "CampaignID" df.cols) r ≠ Value.null)) := hr2
  replace hr3 : rws3 =
      ((rws2.map (fun r =>
          r.set (colIdx "SaleAmount" df.cols)
            (coerceVal (keyAt (colIdx "SaleAmount" df.cols) r)))).filter
        (fun r => decide (keyAt (colIdx "SaleAmount" df.cols) r ≠ Value.null))).filter
      (gtOne (colIdx "SaleAmount" df.cols)) := hr3
  have hsub1 : List.Sublist rws1 df.rows := by
    rw [hr1]; exact dedupFirst_sublist _ _ _
  have hnd1 : (rws1.map (keyAt (colIdx "TransactionID" df.cols))).Nodup := by
    rw [hr1]; exact dedupFirst_keys_nodup _ _ _
  have hsub21 : List.Sublist rws2 rws1 := by
    rw [hr2]; exact List.filter_sublist _
  have hnd2 : (rws2.map (keyAt (colIdx "TransactionID" df.cols))).Nodup :=
    hnd1.sublist (hsub21.map _)
  have hc2all : ∀ r ∈ rws2, keyAt (colIdx "CampaignID" df.cols) r ≠ Value.null := by
    intro r hr
    rw [hr2] at hr
    exact of_decide_eq_true (List.mem_filter.mp hr).2
  have hsub3 : List.Sublist rws3 (rws2.map (fun r =>
      r.set (colIdx "SaleAmount" df.cols)
        (coerceVal (keyAt (colIdx "SaleAmount" df.cols) r)))) := by
    rw [hr3]; exact (List.filter_sublist _).trans (List.filter_sublist _)
  have hmem3 : ∀ r ∈ rws3, ∃ r2 ∈ rws2,
      r2.set (colIdx "SaleAmount" df.cols)
        (coerceVal (keyAt (colIdx "SaleAmount" df.cols) r2)) = r :=
    fun r hr => List.mem_map.mp (hsub3.subset hr)
  have hTA : colIdx "TransactionID" df.cols ≠ colIdx "SaleAmount" df.cols :=
    colIdx_ne_of_ne hT hA (by decide)
  have hCA : colIdx "CampaignID" df.cols ≠ colIdx "SaleAmount" df.cols :=
    colIdx_ne_of_ne hC hA (by decide)
  have hnd3 : (rws3.map (keyAt (colIdx "TransactionID" df.cols))).Nodup := by
    have hcg : rws2.map ((keyAt (colIdx "TransactionID" df.cols)) ∘ (fun r =>
        r.set (colIdx "SaleAmount" df.cols)
          (coerceVal (keyAt (colIdx "SaleAmount" df.cols) r)))) =
        rws2.map (keyAt (colIdx "TransactionID" df.cols)) :=
      List.map_congr_left (fun r _ => keyAt_set_ne _ r _ _ hTA)
    have hs := hsub3.map (keyAt (colIdx "TransactionID" df.cols))
    rw [List.map_map, hcg] at hs
    exact hnd2.sublist hs
  have hc3all : ∀ r ∈ rws3, keyAt (colIdx "CampaignID" df.cols) r ≠ Value.null := by
    intro r hr
    obtain ⟨r2, hr2m, he⟩ := hmem3 r hr
    rw [← he, keyAt_set_ne _ _ _ _ hCA]
    exact hc2all r2 hr2m
  have ha3all : ∀ r ∈ rws3, ∃ q : ℚ,
      keyAt (colIdx "SaleAmount" df.cols) r = .num q ∧ 1 < q :=
    remove_outliers_rows_spec h3
  have hlen3 : ∀ r ∈ rws3, r.length = df.cols.length := by
    intro r hr
    obtain ⟨r2, hr2m, he⟩ := hmem3 r hr
    rw [← he, List.length_set]
    exact hwf r2 (hsub1.subset (hsub21.subset hr2m))
  rw [← hout]
  exact clean_after_standardize hT hC hA hnd3 hc3all ha3all hlen3

theorem projectDf_ok_cols {sel : List String} {df a : DataFrame}
    (h : projectDf sel df = .ok a) : a.cols = sel := by
  unfold projectDf at h
  split at h
  · injection h with h
    subst h
    rfl
  · exact Except.noConfusion h

/-- C4 witness: the one-row clean frame is mapped by the pipeline to a fixed
point of the pipeline. -/
theorem C4_pipeline_idempotent_witness :
    cleaning_pipeline idemExampleOut = .ok idemExampleOut :=
  C4_pipeline_idempotent idemExample idemExampleOut (by decide) (by rfl)

/-- C5: on every dataset on which it succeeds (success is exactly the
presence of the TransactionID column), remove_duplicates returns at most as
many rows, in original relative order (a subsequence of the input rows), and
for every key value the retained rows with that key are exactly the first
input row bearing it. -/
theorem C5_dedup_spec (df out : DataFrame) (h : remove_duplicates df = .ok out) :
    out.rows.length ≤ df.rows.length ∧ List.Sublist out.rows df.rows ∧
      ∀ v : Value,
        out.rows.filter
            (fun r => decide (keyAt (colIdx "TransactionID" df.cols) r = v)) =
          (df.rows.find?
              (fun r => decide (keyAt (colIdx "TransactionID" df.cols) r = v))).toList := by
  obtain ⟨hm, hcols, hrows⟩ := remove_duplicates_ok h
  have hsub : List.Sublist out.rows df.rows := by
    rw [hrows]; exact dedupFirst_sublist _ _ _
  refine ⟨hsub.length_le, hsub, ?_⟩
  intro v
  rw [hrows, dedupFirst_filter_key _ v df.rows [], if_neg (List.not_mem_nil v)]

/-- C5 witness: the section 8.1 example, TransactionID keys 1, 2, 2, 3, with
the per-key clause instantiated at the duplicated key 2. -/
theorem C5_dedup_spec_witness :
    dedupExampleOut.rows.length ≤ dedupExample.rows.length ∧
      List.Sublist dedupExampleOut.rows dedupExample.rows ∧
      dedupExampleOut.rows.filter
          (fun r => decide (keyAt (colIdx "TransactionID" dedupExample.cols) r = Value.num 2)) =
        (dedupExample.rows.find?
            (fun r => decide (keyAt (colIdx "TransactionID" dedupExample.cols) r
              = Value.num 2))).toList :=
  ⟨(C5_dedup_spec dedupExample dedupExampleOut (by rfl)).1,
   (C5_dedup_spec dedupExample dedupExampleOut (by rfl)).2.1,
   (C5_dedup_spec dedupExample dedupExampleOut (by rfl)).2.2 (Value.num 2)⟩

/-- C6: every row remaining after remove_outliers has a numeric SaleAmount
strictly greater than 1 (first conjunct, for every dataset on which the
transform succeeds); on the concrete frame of spec section 8.3 the row with
SaleAmount "abc" is removed (failed coercion), the row with SaleAmount 1 is
removed (exclusive bound), and the row with SaleAmount 1.01 is kept (second
conjunct). -/
theorem C6_outlier_filter :
    (∀ df out : DataFrame, remove_outliers df = .ok out →
        ∀ r ∈ out.rows, ∃ q : ℚ,
          keyAt (colIdx "SaleAmount" df.cols) r = .num q ∧ 1 < q) ∧
      remove_outliers outlierExample = .ok outlierExampleOut :=
  ⟨fun _ _ h => remove_outliers_rows_spec h, by rfl⟩

/-- C6 witness: the universally quantified conjunct applied to the concrete
section 8.3 frame and its single surviving row. -/
theorem C6_outlier_filter_witness :
    ∃ q : ℚ,
      keyAt (colIdx "SaleAmount" outlierExample.cols) [Value.num (mkRat 101 100)]
        = .num q ∧ 1 < q :=
  C6_outlier_filter.1 outlierExample outlierExampleOut (by rfl)
    [Value.num (mkRat 101 100)] (by decide)

/-- C7: on the five-row raw frame of the end-to-end scenario (one duplicate
TransactionID, one null CampaignID, one SaleAmount -5), the prepare pipeline
produces exactly 2 rows, each carrying the standardized date literal. -/
theorem C7_end_to_end :
    cleaning_pipeline scenarioRaw = .ok scenarioPrepared ∧
      scenarioPrepared.rows.length = 2 ∧
      ∀ r ∈ scenarioPrepared.rows,
        keyAt (colIdx "SaleDate" scenarioRaw.cols) r = saleDateLiteral :=
  ⟨by rfl, rfl, by decide⟩

/-- C9: on every dataset lacking the TransactionID column, remove_duplicates
fails with the SchemaError kind (the taxonomy class of a missing expected
column, pandas KeyError), not with success or any other error kind. -/
theorem C9_missing_key_schema_error (df : DataFrame)
    (h : "TransactionID" ∉ df.cols) :
    remove_duplicates df = .error .schemaError := by
  rw [remove_duplicates, if_neg h]

/-- C9 witness: a frame whose only column is SaleAmount. -/
theorem C9_missing_key_schema_error_witness :
    remove_duplicates noKeyExample = .error .schemaError :=
  C9_missing_key_schema_error noKeyExample (by decide)

/-- C10: no row with a missing SaleAmount cell survives remove_outliers —
every row of the result has a non-null SaleAmount. -/
theorem C10_null_amount_removed (df out : DataFrame)
    (h : remove_outliers df = .ok out) :
    ∀ r ∈ out.rows, keyAt (colIdx "SaleAmount" df.cols) r ≠ Value.null := by
  intro r hr
  obtain ⟨q, hq, _⟩ := remove_outliers_rows_spec h r hr
  rw [hq]
  exact fun hh => Value.noConfusion hh

/-- C10 witness: the frame with one null and one numeric SaleAmount cell,
instantiated at the surviving row. -/
theorem C10_null_amount_removed_witness :
    keyAt (colIdx "SaleAmount" nullAmountExample.cols) [Value.num 3] ≠ Value.null :=
  C10_null_amount_removed nullAmountExample amountKeptRow (by rfl)
    [Value.num 3] (by decide)

/-- C1 (code-bug evidence): `load_data_to_db` runs `create_schema` BEFORE
`delete_existing_records` (source lines 149-151), the reverse of the order
the claim states. Consequently, for every prior warehouse state, at the
moment row insertion begins none of the three tables exists (first
conjunct); and even a fully successful load ends with tables recreated by
pandas `to_sql` without the declared schema — the sales table then has no
primary key and no foreign keys (remaining conjuncts). -/
theorem C1_reset_after_create_code_bug :
    (∀ w : Warehouse, delete_existing_records (create_schema w) = ⟨none, none, none⟩) ∧
      load_data_to_db ⟨none, none, none⟩ (.ok custCsvEx) (.ok prodCsvEx) (.ok salesCsvGood)
        = (wLoaded, .success) ∧
      wLoaded.sales = some salesTableLoaded ∧
      salesTableLoaded.schema.primaryKey = none ∧
      salesTableLoaded.schema.foreignKeys = [] ∧
      salesTableLoaded.schema ≠ salesSchema :=
  ⟨fun _ => rfl, by rfl, rfl, rfl, rfl, by decide⟩

/-- C2 (code-bug evidence): starting from a warehouse holding prior sales
contents, with valid customers and products CSVs and a sales CSV missing the
State column, the run catches the error (outcome `caught schemaError`) but —
because the DDL statements and every pandas `to_sql` call commit when they
execute — it leaves the newly inserted customers and products standing and
the sales table dropped: the warehouse contents after the run differ from
before; a partial commit is left. -/
theorem C2_partial_commit_code_bug :
    load_data_to_db wPrior (.ok custCsvEx) (.ok prodCsvEx) (.ok salesCsvBad)
        = (wPartial, .caught .schemaError) ∧
      wPartial ≠ wPrior ∧
      wPartial.customers ≠ none ∧ wPartial.products ≠ none ∧ wPartial.sales = none :=
  ⟨by rfl, by decide, by decide, by decide, rfl⟩

/-- C3 counterexample: `insert_customers` performs no projection, so a
customers frame with an extra column loads that column (which is not among
the section 3 Customer columns); and `insert_sales` projects to nine columns
that do not include quantity, although section 3 declares quantity for Sale. -/
theorem C3_counterexample :
    (insert_customers_df custCsvExtra = .ok custExtraRenamed ∧
      "Extra" ∈ custExtraRenamed.cols ∧ "Extra" ∉ specCustomerColumns) ∧
    (insert_sales_df salesCsvQty = .ok salesQtyProjected ∧
      "quantity" ∈ specSaleColumns ∧ "quantity" ∉ salesQtyProjected.cols) :=
  ⟨⟨by rfl, by decide, by decide⟩, ⟨by rfl, by decide, by decide⟩⟩

/-- C3 (amended): the rename maps match section 6 exactly, but the
projection differs from the claim: customers are renamed and NOT projected
(every input column, renamed, is loaded, with all rows); products are
projected to exactly the section 3 Product columns; sales are projected to
the nine renamed columns sale_id, sale_date, customer_id, product_id,
store_id, campaign_id, sales_amount, discount_amount, state — excluding
quantity and carrying sale_date instead of the declared date. -/
theorem C3_projection_amended (df a : DataFrame) :
    (insert_customers_df df = .ok a →
        a.cols = renameCols customersRenameMap df.cols ∧ a.rows = df.rows) ∧
    (insert_products_df df = .ok a → a.cols = specProductColumns) ∧
    (insert_sales_df df = .ok a →
        a.cols = salesProjection ∧ "quantity" ∉ a.cols ∧
        "sale_date" ∈ a.cols ∧ "date" ∉ a.cols) := by
  refine ⟨?_, ?_, ?_⟩
  · intro h
    injection h with h
    subst h
    exact ⟨rfl, rfl⟩
  · intro h
    exact (projectDf_ok_cols h).trans (by decide)
  · intro h
    have hc := projectDf_ok_cols h
    exact ⟨hc, by rw [hc]; decide, by rw [hc]; decide, by rw [hc]; decide⟩

/-- C3 amended witness: the sales conjunct applied to the concrete frame
carrying a Quantity column. -/
theorem C3_projection_amended_witness :
    salesQtyProjected.cols = salesProjection ∧
      "quantity" ∉ salesQtyProjected.cols ∧
      "sale_date" ∈ salesQtyProjected.cols ∧ "date" ∉ salesQtyProjected.cols :=
  (C3_projection_amended salesCsvQty salesQtyProjected).2.2 (by rfl)

/-- C8 counterexample: `handle_missing_values` mutates its argument in place
(`dropna(..., inplace=True)`): after the call on a frame with a null
CampaignID row, the argument object has lost that row, so the dataset passed
in is not left unchanged. -/
theorem C8_counterexample :
    handle_missing_values_call mutExample = .ok (mutExampleAfter, mutExampleAfter) ∧
      mutExampleAfter ≠ mutExample :=
  ⟨by rfl, by decide⟩

/-- C8 (amended): `remove_duplicates` is pure with respect to its argument;
the other three transforms mutate it: `handle_missing_values` and
`standardize_formats` leave the argument equal to the returned dataset, and
`remove_outliers` leaves the argument with its SaleAmount column coerced but
all rows retained, the returned frame being a subsequence of its rows. -/
theorem C8_mutation_amended (df a out : DataFrame) :
    (remove_duplicates_call df = .ok (a, out) → a = df) ∧
    (handle_missing_values_call df = .ok (a, out) → a = out) ∧
    (remove_outliers_call df = .ok (a, out) →
        a = coerceSaleAmount df (colIdx "SaleAmount" df.cols) ∧
        List.Sublist out.rows a.rows) ∧
    (standardize_formats_call df).1 = (standardize_formats_call df).2 := by
  refine ⟨?_, ?_, ?_, rfl⟩
  · intro h
    obtain ⟨o, _, he⟩ := except_map_ok h
    injection he with h1 h2
    exact h1.symm
  · intro h
    obtain ⟨o, _, he⟩ := except_map_ok h
    injection he with h1 h2
    rw [← h1, ← h2]
  · intro h
    obtain ⟨o, hok, he⟩ := except_map_ok h
    injection he with h1 h2
    obtain ⟨_, _, hrows⟩ := remove_outliers_ok hok
    refine ⟨h1.symm, ?_⟩
    rw [← h1, ← h2, hrows]
    show List.Sublist _ (coerceSaleAmount df (colIdx "SaleAmount" df.cols)).rows
    exact ((List.filter_sublist _).trans (List.filter_sublist _))
  
/-- C8 amended witness: the remove_outliers conjunct at a concrete frame —
the argument keeps both rows with the coerced column while the returned
frame keeps one. -/
theorem C8_mutation_amended_witness :
    mutOutlierAfter = coerceSaleAmount mutOutlierExample
        (colIdx "SaleAmount" mutOutlierExample.cols) ∧
      List.Sublist amountKeptRow.rows mutOutlierAfter.rows :=
  (C8_mutation_amended mutOutlierExample mutOutlierAfter amountKeptRow).2.2.1 (by rfl)
